import Mathlib

/-!
# Verification of the astro-backend Kundali calculation engine

A shallow embedding, over the rationals, of the arithmetic core of
`kundali_calculations.py` and of the time-string parsing in `app.py`,
together with theorems settling the specification claims about them.

Python floats are modelled as exact rationals; Python's `//` and `int()`
on the non-negative quantities that occur here are modelled by `Int.floor`,
and Python's `%` (sign of the divisor, here always positive) by `qmod`.
-/

/-- Python's float modulo `a % b` for a positive divisor `b`:
the representative of `a` modulo `b` lying in `[0, b)`. -/
def qmod (a b : ℚ) : ℚ := a - b * ⌊a / b⌋

theorem qmod_nonneg (a b : ℚ) (hb : 0 < b) : 0 ≤ qmod a b := by
  have h := Int.floor_le (a / b)
  have h2 : b * (⌊a / b⌋ : ℚ) ≤ b * (a / b) := by
    exact mul_le_mul_of_nonneg_left h (le_of_lt hb)
  have h3 : b * (a / b) = a := by field_simp
  unfold qmod
  nlinarith

theorem qmod_lt (a b : ℚ) (hb : 0 < b) : qmod a b < b := by
  have h := Int.lt_floor_add_one (a / b)
  have h2 : b * (a / b) < b * ((⌊a / b⌋ : ℚ) + 1) := by
    exact mul_lt_mul_of_pos_left h hb
  have h3 : b * (a / b) = a := by field_simp
  unfold qmod
  nlinarith

/-- If `0 ≤ a < b` then `a % b = a`. -/
theorem qmod_eq_self (a b : ℚ) (hb : 0 < b) (h0 : 0 ≤ a) (h1 : a < b) :
    qmod a b = a := by
  have hfl : ⌊a / b⌋ = 0 := by
    rw [Int.floor_eq_zero_iff]
    constructor
    · exact div_nonneg h0 (le_of_lt hb)
    · rw [div_lt_one hb]; exact h1
  unfold qmod
  rw [hfl]
  push_cast
  ring

/-- If `b ≤ a < 2*b` then `a % b = a - b`. -/
theorem qmod_eq_sub (a b : ℚ) (hb : 0 < b) (h0 : b ≤ a) (h1 : a < 2 * b) :
    qmod a b = a - b := by
  have hfl : ⌊a / b⌋ = 1 := by
    rw [Int.floor_eq_iff]
    constructor
    · push_cast
      rw [le_div_iff₀ hb]
      linarith
    · push_cast
      rw [div_lt_iff₀ hb]
      linarith
  unfold qmod
  rw [hfl]
  push_cast
  ring

/-! ## Signs (`SIGNS`, `sign_name`, and the sign-number computation
in `calculate_kundali`, kundali_calculations.py lines 570-574) -/

/-- The 12 zodiac sign names, in order (`SIGNS` in kundali_calculations.py). -/
def SIGNS : List String :=
  ["Aries", "Taurus", "Gemini", "Cancer",
   "Leo", "Virgo", "Libra", "Scorpio",
   "Sagittarius", "Capricorn", "Aquarius", "Pisces"]

/-- The `sign_name` from kundali_calculations.py: converts a 1-based sign number
to a name, returning "Unknown" outside `[1, 12]`. -/
def sign_name (sign_number : ℤ) : String :=
  if 1 ≤ sign_number ∧ sign_number ≤ 12 then
    SIGNS.getD (sign_number - 1).toNat "Unknown"
  else "Unknown"

/-- The sign-number computation applied to each planet (and the ascendant) in
`calculate_kundali`:
`s_num = int(deg // 30) + 1; if s_num > 12: s_num -= 12`. -/
def planet_sign_number (deg : ℚ) : ℤ :=
  let s : ℤ := ⌊deg / 30⌋ + 1
  if s > 12 then s - 12 else s

/-- The specification's sign formula, applied to the normalized longitude:
`Sign(L) = floor((L mod 360) / 30) + 1`.  On `[0, 360)` this is always in
`[1, 12]`, so no wrap step is needed. -/
def specSign (L : ℚ) : ℤ := ⌊qmod L 360 / 30⌋ + 1

theorem floor_div30_bounds (L : ℚ) (h0 : 0 ≤ L) (h1 : L < 360) :
    0 ≤ ⌊L / 30⌋ ∧ ⌊L / 30⌋ ≤ 11 := by
  constructor
  · exact Int.floor_nonneg.mpr (div_nonneg h0 (by norm_num))
  · have : ⌊L / 30⌋ < 12 := by
      rw [Int.floor_lt]
      rw [div_lt_iff₀ (by norm_num : (0:ℚ) < 30)]
      push_cast
      linarith
    omega

/-- Claim C3 (amended): on `[0, 720)` — which covers every ephemeris output in
`[0, 360)` and one extra wrap — the engine's sign number agrees with the
specification's `Sign(L mod 360)` and lies in `[1, 12]`.  (The unamended
claim, quantified over every real longitude, fails at `L = 720`: see the
counterexample.) -/
theorem C3_sign_of_longitude (L : ℚ) (h0 : 0 ≤ L) (h1 : L < 720) :
    planet_sign_number L = specSign L ∧
    1 ≤ planet_sign_number L ∧ planet_sign_number L ≤ 12 := by
  by_cases hc : L < 360
  · have hm : qmod L 360 = L := qmod_eq_self L 360 (by norm_num) h0 hc
    have hb := floor_div30_bounds L h0 hc
    unfold planet_sign_number specSign
    rw [hm]
    simp only []
    have hnot : ¬ (⌊L / 30⌋ + 1 > 12) := by omega
    rw [if_neg hnot]
    omega
  · push_neg at hc
    have hm : qmod L 360 = L - 360 := by
      apply qmod_eq_sub L 360 (by norm_num) hc
      linarith
    have hb : 12 ≤ ⌊L / 30⌋ ∧ ⌊L / 30⌋ ≤ 23 := by
      constructor
      · apply Int.le_floor.mpr
        rw [le_div_iff₀ (by norm_num : (0:ℚ) < 30)]
        push_cast
        linarith
      · have : ⌊L / 30⌋ < 24 := by
          rw [Int.floor_lt]
          rw [div_lt_iff₀ (by norm_num : (0:ℚ) < 30)]
          push_cast
          linarith
        omega
    have hsub : ⌊(L - 360) / 30⌋ = ⌊L / 30⌋ - 12 := by
      have h360 : (L - 360) / 30 = L / 30 - (12 : ℤ) := by
        push_cast
        ring
      rw [h360, Int.floor_sub_int]
    unfold planet_sign_number specSign
    rw [hm, hsub]
    simp only []
    have hgt : ⌊L / 30⌋ + 1 > 12 := by omega
    rw [if_pos hgt]
    omega

/-- Witness for C3: the amended statement holds at the concrete longitude 45°. -/
theorem C3_sign_of_longitude_witness :
    (0 ≤ (45:ℚ) ∧ (45:ℚ) < 720) ∧
    (planet_sign_number 45 = specSign 45 ∧
     1 ≤ planet_sign_number 45 ∧ planet_sign_number 45 ≤ 12) :=
  ⟨⟨by norm_num, by norm_num⟩, C3_sign_of_longitude 45 (by norm_num) (by norm_num)⟩

/-- Counterexample for C3 as frozen: at `L = 720` the engine's single
`if s_num > 12: s_num -= 12` wrap produces sign number 13, which is outside
`[1, 12]` and differs from `Sign(720 mod 360) = 1`; `sign_name` maps it to
"Unknown". -/
theorem C3_counterexample :
    planet_sign_number 720 = 13 ∧ specSign 720 = 1 ∧
    ¬ (planet_sign_number 720 ≤ 12) ∧ sign_name (planet_sign_number 720) = "Unknown" := by
  have h24 : ⌊(720:ℚ) / 30⌋ = 24 := by norm_num
  have hq : qmod 720 360 = 0 := by unfold qmod; norm_num
  have h1 : planet_sign_number 720 = 13 := by
    unfold planet_sign_number
    rw [h24]
    norm_num
  have h2 : specSign 720 = 1 := by
    unfold specSign
    rw [hq]
    norm_num
  refine ⟨h1, h2, by rw [h1]; norm_num, by rw [h1]; rfl⟩

/-! ## Nakshatra locator (`calculate_nakshatra`, lines 113-128) -/

/-- The truncated nakshatra-width constant `13.3333333` that the source uses
(lines 119 and 158), as an exact rational.  It is slightly smaller than the
true width `360 / 27 = 13.333...`. -/
def NAK_WIDTH : ℚ := 133333333 / 10000000

/-- The 27 lunar-mansion names, in order (`nakshatras` in
`calculate_nakshatra`). -/
def nakshatras : List String :=
  ["Ashwini", "Bharani", "Krittika", "Rohini", "Mrigashira", "Ardra",
   "Punarvasu", "Pushya", "Ashlesha", "Magha", "Purva Phalguni",
   "Uttara Phalguni", "Hasta", "Chitra", "Swati", "Vishakha",
   "Anuradha", "Jyeshtha", "Mula", "Purva Ashadha", "Uttara Ashadha",
   "Shravana", "Dhanishta", "Shatabhisha", "Purva Bhadrapada",
   "Uttara Bhadrapada", "Revati"]

/-- The `calculate_nakshatra`, with the Moon's sidereal longitude supplied by the
ephemeris adapter: `nakshatra_num = int((moon % 360) / 13.3333333) + 1`
followed by the list access `nakshatras[nakshatra_num - 1]`.  Python list
access that would raise `IndexError` is modelled as `none`. -/
def calculate_nakshatra (moon_lon : ℚ) : Option String :=
  let nakshatra_num : ℤ := ⌊qmod moon_lon 360 / NAK_WIDTH⌋ + 1
  nakshatras.get? (nakshatra_num - 1).toNat

/-- The specification's nakshatra index: `floor((moon mod 360) / (360/27))`. -/
def specNakIndex (moon_lon : ℚ) : ℤ := ⌊qmod moon_lon 360 / (360 / 27)⌋

/-- Claim C5: the spec says the nakshatra lookup is a total function on
`[0, 360)` computing `floor(longitude / (360/27))` — and indeed each nakshatra
spans 13°20' per the function's own docstring.  The code instead divides by
the truncated constant `13.3333333`, so for Moon longitudes in the final
sliver `[27 × 13.3333333, 360) = [359.9999991, 360)` of Revati it computes
index 27 and the 27-element list access raises `IndexError`.  At the failing
input `359.9999999` the spec's index is 26 (Revati) but the code fails. -/
theorem C5_nakshatra_index_error :
    (0 ≤ (3599999999 / 10000000 : ℚ) ∧ (3599999999 / 10000000 : ℚ) < 360) ∧
    specNakIndex (3599999999 / 10000000) = 26 ∧
    nakshatras.get? 26 = some "Revati" ∧
    calculate_nakshatra (3599999999 / 10000000) = none := by
  have hq : qmod (3599999999 / 10000000) 360 = 3599999999 / 10000000 :=
    qmod_eq_self _ _ (by norm_num) (by norm_num) (by norm_num)
  refine ⟨⟨by norm_num, by norm_num⟩, ?_, by decide, ?_⟩
  · unfold specNakIndex
    rw [hq]
    norm_num
  · unfold calculate_nakshatra
    rw [hq]
    have h27 : ⌊(3599999999 / 10000000 : ℚ) / NAK_WIDTH⌋ = 27 := by
      unfold NAK_WIDTH
      norm_num
    rw [h27]
    rfl

/-! ## Vimshottari Dasha engine (`calculate_vimshottari_dasha`,
`get_current_dasha`, `calculate_antardasha`, lines 134-274)

The Moon's sidereal longitude is an input (it comes from the ephemeris
adapter), and the birth instant is an abstract time coordinate `t0` measured
in days (the source converts the birth Julian Day back to a `datetime`;
absolute origin is irrelevant to every claim below).  `datetime` arithmetic
is modelled exactly over ℚ. -/

/-- One Dasha (or Antardasha) period: a planet with start and end times,
both measured in days on the same axis as `t0`. -/
structure DashaPeriod where
  planet : String
  start_date : ℚ
  end_date : ℚ
deriving DecidableEq, Repr

/-- The Vimshottari sequence with canonical durations in years, in fixed
order, from `calculate_vimshottari_dasha`. -/
def dasha_sequence : List (String × ℚ) :=
  [("Ketu", 7), ("Venus", 20), ("Sun", 6), ("Moon", 10), ("Mars", 7),
   ("Rahu", 18), ("Jupiter", 16), ("Saturn", 19), ("Mercury", 17)]

/-- Chain a list of (planet, duration-in-days) entries into consecutive
periods starting at `t0`: models the accumulation loops of both
`calculate_vimshottari_dasha` and `calculate_antardasha`, in which each
period starts exactly where the previous one ends. -/
def buildPeriods (t0 : ℚ) : List (String × ℚ) → List DashaPeriod
  | [] => []
  | (p, d) :: rest => { planet := p, start_date := t0, end_date := t0 + d } :: buildPeriods (t0 + d) rest

/-- The 0-based birth nakshatra index of line 158:
`int((moon_lon % 360) / 13.3333333)`. -/
def nakshatra_number (moon_lon : ℚ) : ℤ := ⌊qmod moon_lon 360 / NAK_WIDTH⌋

/-- The rotated Mahadasha order of line 161:
`dasha_sequence[n % 9:] + dasha_sequence[:n % 9]`. -/
def dasha_order (moon_lon : ℚ) : List (String × ℚ) :=
  let k := (nakshatra_number moon_lon).toNat % 9
  dasha_sequence.drop k ++ dasha_sequence.take k

/-- Fraction of the birth nakshatra already elapsed, line 164:
`(moon_lon % 13.3333333) / 13.3333333`. -/
def nakshatra_pada (moon_lon : ℚ) : ℚ := qmod moon_lon NAK_WIDTH / NAK_WIDTH

/-- Remaining years of the first Mahadasha, line 165:
`dasha_order[0][1] * (1 - nakshatra_pada)`. -/
def balance_years (moon_lon : ℚ) : ℚ :=
  ((dasha_order moon_lon).headD ("", 0)).2 * (1 - nakshatra_pada moon_lon)

/-- The `calculate_vimshottari_dasha`: the first period carries the remaining
fraction of its planet's canonical years, the following eight their full
canonical years, each converted to days at 365.25 days/year and chained
contiguously from the birth instant `t0`. -/
def calculate_vimshottari_dasha (moon_lon t0 : ℚ) : List DashaPeriod :=
  let order := dasha_order moon_lon
  buildPeriods t0
    (((order.headD ("", 0)).1, balance_years moon_lon * 365.25) ::
      order.tail.map (fun py => (py.1, py.2 * 365.25)))

/-- Duration of a period in days. -/
def periodDuration (p : DashaPeriod) : ℚ := p.end_date - p.start_date

/-- Sum of the durations of a list of periods. -/
def sumDurations (l : List DashaPeriod) : ℚ := (l.map periodDuration).sum

/-- Two consecutive periods are contiguous: the first ends exactly where the
second starts. -/
def Contiguous (a b : DashaPeriod) : Prop := a.end_date = b.start_date

/-- The linear search of `get_current_dasha` / the Antardasha search loop:
first period whose closed interval `[start, end]` contains `now`. -/
def find_current (now : ℚ) : List DashaPeriod → Option DashaPeriod
  | [] => none
  | d :: rest =>
      if d.start_date ≤ now ∧ now ≤ d.end_date then some d else find_current now rest

/-- The `get_current_dasha`, with the wall-clock instant `now` made explicit. -/
def get_current_dasha (dasha_periods : List DashaPeriod) (now : ℚ) : Option DashaPeriod :=
  find_current now dasha_periods


theorem buildPeriods_length (l : List (String × ℚ)) :
    ∀ t0 : ℚ, (buildPeriods t0 l).length = l.length := by
  induction l with
  | nil => intro t0; rfl
  | cons hd tl ih =>
      intro t0
      obtain ⟨p, d⟩ := hd
      simp [buildPeriods, ih]

theorem buildPeriods_durations (l : List (String × ℚ)) :
    ∀ t0 : ℚ, (buildPeriods t0 l).map periodDuration = l.map Prod.snd := by
  induction l with
  | nil => intro t0; rfl
  | cons hd tl ih =>
      intro t0
      obtain ⟨p, d⟩ := hd
      simp [buildPeriods, periodDuration, ih]

theorem buildPeriods_planets (l : List (String × ℚ)) :
    ∀ t0 : ℚ, (buildPeriods t0 l).map DashaPeriod.planet = l.map Prod.fst := by
  induction l with
  | nil => intro t0; rfl
  | cons hd tl ih =>
      intro t0
      obtain ⟨p, d⟩ := hd
      simp [buildPeriods, ih]

theorem buildPeriods_chain (l : List (String × ℚ)) :
    ∀ t0 : ℚ, List.Chain' Contiguous (buildPeriods t0 l) := by
  induction l with
  | nil => intro t0; exact List.chain'_nil
  | cons hd tl ih =>
      intro t0
      obtain ⟨p, d⟩ := hd
      rw [buildPeriods, List.chain'_cons']
      refine ⟨?_, ih (t0 + d)⟩
      intro y hy
      cases tl with
      | nil => simp [buildPeriods] at hy
      | cons hd2 tl2 =>
          obtain ⟨q, e⟩ := hd2
          simp [buildPeriods] at hy
          rw [← hy]
          rfl

theorem buildPeriods_head_start (x : String × ℚ) (l : List (String × ℚ)) (t0 : ℚ) (d : DashaPeriod) :
    ((buildPeriods t0 (x :: l)).headD d).start_date = t0 := by
  obtain ⟨p, dd⟩ := x
  rfl

/-- Rotating a list does not change the sum of any projection over it. -/
theorem sum_map_rotation {α : Type} (f : α → ℚ) (l : List α) (k : ℕ) :
    ((l.drop k ++ l.take k).map f).sum = (l.map f).sum := by
  rw [List.map_append, List.sum_append, add_comm, ← List.sum_append, ← List.map_append,
    List.take_append_drop]

theorem dasha_sequence_years_sum : (dasha_sequence.map Prod.snd).sum = 120 := by
  norm_num [dasha_sequence]

theorem dasha_order_length (moon_lon : ℚ) : (dasha_order moon_lon).length = 9 := by
  unfold dasha_order
  have h : ((nakshatra_number moon_lon).toNat % 9) < 9 := Nat.mod_lt _ (by norm_num)
  simp [dasha_sequence]
  omega

theorem dasha_order_years_sum (moon_lon : ℚ) :
    ((dasha_order moon_lon).map Prod.snd).sum = 120 := by
  unfold dasha_order
  rw [sum_map_rotation]
  exact dasha_sequence_years_sum


theorem sum_map_mul_const {α : Type} (g : α → ℚ) (c : ℚ) (l : List α) :
    (l.map fun a => g a * c).sum = (l.map g).sum * c := by
  induction l with
  | nil => simp
  | cons hd tl ih => simp [ih, add_mul]

/-- The exact total of the nine emitted Mahadasha durations: 120 years minus
the already-elapsed portion of the first planet's period, at 365.25 days per
year. -/
theorem vimshottari_sum (moon_lon t0 : ℚ) :
    sumDurations (calculate_vimshottari_dasha moon_lon t0) =
      (120 - ((dasha_order moon_lon).headD ("", 0)).2 * nakshatra_pada moon_lon) * 365.25 := by
  have hlen := dasha_order_length moon_lon
  cases horder : dasha_order moon_lon with
  | nil => rw [horder] at hlen; simp at hlen
  | cons hd tl =>
      have hsum := dasha_order_years_sum moon_lon
      rw [horder, List.map_cons, List.sum_cons] at hsum
      unfold sumDurations calculate_vimshottari_dasha
      rw [buildPeriods_durations, horder]
      simp only [List.headD_cons, List.tail_cons, List.map_cons, List.sum_cons, List.map_map]
      have hmm : (List.map (Prod.snd ∘ fun py : String × ℚ => (py.1, py.2 * 365.25)) tl).sum
          = (tl.map fun py : String × ℚ => py.2 * 365.25).sum := by
        congr 1
      rw [hmm]
      have hc : (tl.map fun py : String × ℚ => py.2 * 365.25).sum
          = (tl.map Prod.snd).sum * 365.25 := by
        have := sum_map_mul_const (Prod.snd : String × ℚ → ℚ) 365.25 tl
        simpa using this
      rw [hc]
      unfold balance_years
      rw [horder]
      simp only [List.headD_cons]
      have htl : (tl.map Prod.snd).sum = 120 - hd.2 := by linarith
      rw [htl]
      ring

/-- Claim C1 (amended): for every birth, `calculate_vimshottari_dasha` emits
exactly 9 Mahadasha periods that are contiguous (each period's end equals the
next period's start, with zero gaps and zero overlaps), and their durations
sum to `(120 − firstYears × elapsedFraction) × 365.25` days: the 120-year
cycle minus the part of the first planet's period already elapsed at birth.
The frozen claim's sum of exactly `120 × 365.25` days holds only when the
Moon sits exactly on a nakshatra boundary (elapsed fraction 0); see the
counterexample. -/
theorem C1_dasha_periods (moon_lon t0 : ℚ) :
    (calculate_vimshottari_dasha moon_lon t0).length = 9 ∧
    List.Chain' Contiguous (calculate_vimshottari_dasha moon_lon t0) ∧
    sumDurations (calculate_vimshottari_dasha moon_lon t0) =
      (120 - ((dasha_order moon_lon).headD ("", 0)).2 * nakshatra_pada moon_lon) * 365.25 := by
  refine ⟨?_, ?_, vimshottari_sum moon_lon t0⟩
  · unfold calculate_vimshottari_dasha
    rw [buildPeriods_length]
    have hlen := dasha_order_length moon_lon
    simp [List.length_tail, hlen]
  · unfold calculate_vimshottari_dasha
    exact buildPeriods_chain _ _

theorem nak_number_15 : nakshatra_number 15 = 1 := by
  unfold nakshatra_number
  rw [qmod_eq_self 15 360 (by norm_num) (by norm_num) (by norm_num)]
  unfold NAK_WIDTH
  norm_num

theorem dasha_order_15 :
    dasha_order 15 =
      [("Venus", 20), ("Sun", 6), ("Moon", 10), ("Mars", 7), ("Rahu", 18),
       ("Jupiter", 16), ("Saturn", 19), ("Mercury", 17), ("Ketu", 7)] := by
  unfold dasha_order
  rw [nak_number_15]
  rfl

theorem pada_15 : nakshatra_pada 15 = 16666667 / 133333333 := by
  unfold nakshatra_pada qmod NAK_WIDTH
  norm_num

/-- Counterexample for C1 as frozen: with the Moon at 15° the nine durations
sum to `(120 − 20 × 0.125000006...) × 365.25 ≈ 42917` days, about 913 days
short of `120 × 365.25 = 43830` days — far beyond rounding, because the first
(Venus) period is emitted truncated while the claimed total counts it whole. -/
theorem C1_counterexample :
    sumDurations (calculate_vimshottari_dasha 15 0) ≠ 120 * 365.25 := by
  rw [vimshottari_sum, dasha_order_15, pada_15]
  norm_num

/-- Claim C7: with the Moon at exactly 15.0° the birth nakshatra index is 1
(Bharani), the first Mahadasha planet is Venus (canonical 20 years), the
elapsed fraction is within 10⁻⁶ of 0.125, and the first period's duration is
within 0.01 days of 17.5 × 365.25 days, i.e. approximately 20 × (1 − 0.125)
= 17.5 years. -/
theorem C7_moon_at_15 :
    nakshatra_number 15 = 1 ∧
    ((calculate_vimshottari_dasha 15 0).headD ⟨"", 0, 0⟩).planet = "Venus" ∧
    |nakshatra_pada 15 - 1/8| < 1/1000000 ∧
    |periodDuration ((calculate_vimshottari_dasha 15 0).headD ⟨"", 0, 0⟩) - 17.5 * 365.25| < 1/100 := by
  have hhead : (calculate_vimshottari_dasha 15 0).headD ⟨"", 0, 0⟩ =
      ⟨"Venus", 0, balance_years 15 * 365.25⟩ := by
    unfold calculate_vimshottari_dasha
    rw [dasha_order_15]
    simp [buildPeriods]
  have hbal : balance_years 15 = 20 * (1 - 16666667 / 133333333) := by
    unfold balance_years
    rw [dasha_order_15, pada_15]
    simp
  refine ⟨nak_number_15, ?_, ?_, ?_⟩
  · rw [hhead]
  · rw [pada_15, abs_lt]
    constructor <;> norm_num
  · rw [hhead]
    unfold periodDuration
    simp only []
    rw [hbal, abs_lt]
    constructor <;> norm_num


/-! ## Antardasha (`calculate_antardasha`, lines 212-274) -/

/-- The fixed 9-planet name cycle declared inside `calculate_antardasha`. -/
def dasha_sequence_names : List String :=
  ["Ketu", "Venus", "Sun", "Moon", "Mars", "Rahu", "Jupiter", "Saturn", "Mercury"]

/-- The `antardasha_lengths` dictionary: canonical years per planet
(0 for a key not in the dictionary, which no caller exercises). -/
def antardasha_lengths (p : String) : ℚ :=
  (([("Ketu", (7:ℚ)), ("Venus", 20), ("Sun", 6), ("Moon", 10), ("Mars", 7),
     ("Rahu", 18), ("Jupiter", 16), ("Saturn", 19), ("Mercury", 17)]).lookup p).getD 0

/-- The cyclic Antardasha order starting from the Mahadasha planet, line 233:
`dasha_sequence[start_index:] + dasha_sequence[:start_index]`.  Python raises
an exception when the planet is absent from the sequence; `List.indexOf` then
returns the length, a case no theorem below relies on (they all assume
membership or use concrete members). -/
def antardasha_sequence (B : String) : List String :=
  let start_index := dasha_sequence_names.indexOf B
  dasha_sequence_names.drop start_index ++ dasha_sequence_names.take start_index

/-- Line 249: `(end_date - start_date).days` — Python's `timedelta.days`
truncates to whole days (floor). -/
def total_dasha_duration (cur : DashaPeriod) : ℤ := ⌊cur.end_date - cur.start_date⌋

/-- The 9 Antardasha periods built inside `calculate_antardasha`: each planet
gets `(canonical years / 120) × total_dasha_duration` days, chained from the
Mahadasha's start. -/
def antardasha_list (cur : DashaPeriod) : List DashaPeriod :=
  buildPeriods cur.start_date
    ((antardasha_sequence cur.planet).map
      (fun p => (p, antardasha_lengths p / 120 * (total_dasha_duration cur : ℚ))))

/-- The `calculate_antardasha` with the wall-clock instant explicit: `None` when
there is no current Mahadasha, otherwise the first sub-period whose closed
interval contains `now` (or `None` when none does). -/
def calculate_antardasha (current_dasha : Option DashaPeriod) (now : ℚ) : Option DashaPeriod :=
  match current_dasha with
  | none => none
  | some cur => find_current now (antardasha_list cur)

theorem antardasha_sequence_length (B : String) : (antardasha_sequence B).length = 9 := by
  unfold antardasha_sequence
  simp [dasha_sequence_names]
  omega

theorem antardasha_sequence_headD (B : String) (h : B ∈ dasha_sequence_names) :
    (antardasha_sequence B).headD "" = B := by
  fin_cases h <;> decide

theorem antardasha_lengths_sum (B : String) :
    ((antardasha_sequence B).map antardasha_lengths).sum = 120 := by
  unfold antardasha_sequence
  rw [sum_map_rotation]
  have h : dasha_sequence_names.map antardasha_lengths = [7, 20, 6, 10, 7, 18, 16, 19, 17] := by
    decide
  rw [h]
  norm_num

theorem antardasha_durations (cur : DashaPeriod) :
    (antardasha_list cur).map periodDuration =
      (antardasha_sequence cur.planet).map
        (fun p => antardasha_lengths p / 120 * (total_dasha_duration cur : ℚ)) := by
  unfold antardasha_list
  rw [buildPeriods_durations]
  rw [List.map_map]
  congr 1

theorem antardasha_sum (cur : DashaPeriod) :
    sumDurations (antardasha_list cur) = (total_dasha_duration cur : ℚ) := by
  unfold sumDurations
  rw [antardasha_durations]
  have hfun : (fun p => antardasha_lengths p / 120 * (total_dasha_duration cur : ℚ)) =
      (fun p => antardasha_lengths p * ((total_dasha_duration cur : ℚ) / 120)) := by
    funext p
    ring
  rw [hfun, sum_map_mul_const, antardasha_lengths_sum]
  ring

/-- Claim C6: for a current Mahadasha with planet `B` (a member of the fixed
sequence) the code builds exactly 9 sub-periods, in the fixed cyclic order
starting at `B`, chained contiguously from the Mahadasha's start, the i-th
lasting `(canonical years / 120) × D` days where `D` is the Mahadasha's
duration truncated to whole days; the nine sub-durations sum exactly to `D`,
which is within one day of the Mahadasha's true duration (the "± rounding"). -/
theorem C6_antardasha_subperiods (cur : DashaPeriod) (hmem : cur.planet ∈ dasha_sequence_names) :
    (antardasha_list cur).length = 9 ∧
    List.Chain' Contiguous (antardasha_list cur) ∧
    ((antardasha_list cur).headD ⟨"", 0, 0⟩).start_date = cur.start_date ∧
    ((antardasha_list cur).headD ⟨"", 0, 0⟩).planet = cur.planet ∧
    (antardasha_list cur).map DashaPeriod.planet = antardasha_sequence cur.planet ∧
    (antardasha_list cur).map periodDuration =
      (antardasha_sequence cur.planet).map
        (fun p => antardasha_lengths p / 120 * (total_dasha_duration cur : ℚ)) ∧
    sumDurations (antardasha_list cur) = (total_dasha_duration cur : ℚ) ∧
    cur.end_date - cur.start_date - 1 < (total_dasha_duration cur : ℚ) ∧
    (total_dasha_duration cur : ℚ) ≤ cur.end_date - cur.start_date := by
  have hlen9 := antardasha_sequence_length cur.planet
  have hhead := antardasha_sequence_headD cur.planet hmem
  refine ⟨?_, ?_, ?_, ?_, ?_, antardasha_durations cur, antardasha_sum cur, ?_, ?_⟩
  · unfold antardasha_list
    rw [buildPeriods_length, List.length_map, hlen9]
  · unfold antardasha_list
    exact buildPeriods_chain _ _
  · cases hseq : antardasha_sequence cur.planet with
    | nil => rw [hseq] at hlen9; simp at hlen9
    | cons a tl =>
        unfold antardasha_list
        rw [hseq, List.map_cons]
        exact buildPeriods_head_start _ _ _ _
  · cases hseq : antardasha_sequence cur.planet with
    | nil => rw [hseq] at hlen9; simp at hlen9
    | cons a tl =>
        rw [hseq] at hhead
        simp only [List.headD_cons] at hhead
        unfold antardasha_list
        rw [hseq, List.map_cons, buildPeriods]
        simp [hhead]
  · unfold antardasha_list
    rw [buildPeriods_planets, List.map_map]
    have hid : (Prod.fst ∘ fun p =>
        (p, antardasha_lengths p / 120 * (total_dasha_duration cur : ℚ))) = id := by
      funext p
      rfl
    rw [hid, List.map_id]
  · unfold total_dasha_duration
    have := Int.sub_one_lt_floor (cur.end_date - cur.start_date)
    linarith
  · unfold total_dasha_duration
    exact Int.floor_le _

/-- Witness for C6: the full statement evaluated at a Ketu Mahadasha of the
canonical 7 × 365.25 = 2556.75 days starting at time 0. -/
theorem C6_antardasha_subperiods_witness :
    ((⟨"Ketu", 0, 10227/4⟩ : DashaPeriod).planet ∈ dasha_sequence_names) ∧
    ((antardasha_list ⟨"Ketu", 0, 10227/4⟩).length = 9 ∧
     List.Chain' Contiguous (antardasha_list ⟨"Ketu", 0, 10227/4⟩) ∧
     ((antardasha_list ⟨"Ketu", 0, 10227/4⟩).headD ⟨"", 0, 0⟩).start_date =
       (⟨"Ketu", 0, 10227/4⟩ : DashaPeriod).start_date ∧
     ((antardasha_list ⟨"Ketu", 0, 10227/4⟩).headD ⟨"", 0, 0⟩).planet =
       (⟨"Ketu", 0, 10227/4⟩ : DashaPeriod).planet ∧
     (antardasha_list ⟨"Ketu", 0, 10227/4⟩).map DashaPeriod.planet =
       antardasha_sequence (⟨"Ketu", 0, 10227/4⟩ : DashaPeriod).planet ∧
     (antardasha_list ⟨"Ketu", 0, 10227/4⟩).map periodDuration =
       (antardasha_sequence (⟨"Ketu", 0, 10227/4⟩ : DashaPeriod).planet).map
         (fun p => antardasha_lengths p / 120 *
           (total_dasha_duration ⟨"Ketu", 0, 10227/4⟩ : ℚ)) ∧
     sumDurations (antardasha_list ⟨"Ketu", 0, 10227/4⟩) =
       (total_dasha_duration ⟨"Ketu", 0, 10227/4⟩ : ℚ) ∧
     (⟨"Ketu", 0, 10227/4⟩ : DashaPeriod).end_date -
       (⟨"Ketu", 0, 10227/4⟩ : DashaPeriod).start_date - 1 <
       (total_dasha_duration ⟨"Ketu", 0, 10227/4⟩ : ℚ) ∧
     (total_dasha_duration ⟨"Ketu", 0, 10227/4⟩ : ℚ) ≤
       (⟨"Ketu", 0, 10227/4⟩ : DashaPeriod).end_date -
       (⟨"Ketu", 0, 10227/4⟩ : DashaPeriod).start_date) :=
  ⟨by decide, C6_antardasha_subperiods ⟨"Ketu", 0, 10227/4⟩ (by decide)⟩


/-- The concrete sub-period table for a full Ketu Mahadasha of
7 × 365.25 = 2556.75 days starting at time 0: the sub-periods apportion only
`⌊2556.75⌋ = 2556` days. -/
theorem antardasha_list_ketu :
    antardasha_list ⟨"Ketu", 0, 10227/4⟩ =
      [⟨"Ketu", 0, 1491/10⟩, ⟨"Venus", 1491/10, 5751/10⟩, ⟨"Sun", 5751/10, 7029/10⟩,
       ⟨"Moon", 7029/10, 9159/10⟩, ⟨"Mars", 9159/10, 1065⟩, ⟨"Rahu", 1065, 7242/5⟩,
       ⟨"Jupiter", 7242/5, 8946/5⟩, ⟨"Saturn", 8946/5, 21939/10⟩, ⟨"Mercury", 21939/10, 2556⟩] := by
  have ht : (total_dasha_duration ⟨"Ketu", 0, 10227/4⟩ : ℚ) = 2556 := by
    unfold total_dasha_duration
    norm_num
  have hseq : antardasha_sequence "Ketu" = dasha_sequence_names := by decide
  have h1 : antardasha_lengths "Ketu" = 7 := by decide
  have h2 : antardasha_lengths "Venus" = 20 := by decide
  have h3 : antardasha_lengths "Sun" = 6 := by decide
  have h4 : antardasha_lengths "Moon" = 10 := by decide
  have h5 : antardasha_lengths "Mars" = 7 := by decide
  have h6 : antardasha_lengths "Rahu" = 18 := by decide
  have h7 : antardasha_lengths "Jupiter" = 16 := by decide
  have h8 : antardasha_lengths "Saturn" = 19 := by decide
  have h9 : antardasha_lengths "Mercury" = 17 := by decide
  unfold antardasha_list
  rw [ht, hseq]
  simp only [dasha_sequence_names, List.map_cons, List.map_nil, h1, h2, h3, h4, h5, h6, h7, h8, h9]
  norm_num [buildPeriods]

/-- Claim C9: `calculate_antardasha` truncates the parent Mahadasha's span to
whole days (`(end - start).days`), so its 9 sub-periods cover only the
integer day count.  For a full 7-year Ketu Mahadasha spanning 2556.75 days
from time 0, the sub-periods end at day 2556, and at the instant 2556.5 —
inside the Mahadasha's final fractional day — a current Mahadasha exists
(`get_current_dasha` finds it) while `calculate_antardasha` returns `None`. -/
theorem C9_fractional_day_gap :
    get_current_dasha [⟨"Ketu", 0, 10227/4⟩] (5113/2) = some ⟨"Ketu", 0, 10227/4⟩ ∧
    (total_dasha_duration ⟨"Ketu", 0, 10227/4⟩ : ℚ) = 2556 ∧
    sumDurations (antardasha_list ⟨"Ketu", 0, 10227/4⟩) = 2556 ∧
    ((antardasha_list ⟨"Ketu", 0, 10227/4⟩).getLastD ⟨"", 0, 0⟩).end_date = 2556 ∧
    (2556 : ℚ) < 5113/2 ∧ (5113/2 : ℚ) < 10227/4 ∧
    calculate_antardasha (some ⟨"Ketu", 0, 10227/4⟩) (5113/2) = none := by
  refine ⟨?_, ?_, ?_, ?_, by norm_num, by norm_num, ?_⟩
  · unfold get_current_dasha find_current
    rw [if_pos]
    constructor <;> norm_num
  · unfold total_dasha_duration
    norm_num
  · rw [antardasha_list_ketu]
    unfold sumDurations periodDuration
    norm_num
  · rw [antardasha_list_ketu]
    rfl
  · show find_current (5113/2) (antardasha_list ⟨"Ketu", 0, 10227/4⟩) = none
    rw [antardasha_list_ketu]
    norm_num [find_current]


/-! ## House resolver (`determine_house_for_planet`, lines 100-111) -/

/-- The loop-body test of `determine_house_for_planet` for index `i`:
`cusp = houses[i]`, `next_cusp = houses[(i+1) % 12] + (360 if i == 11 else 0)`,
`adj_deg = deg if deg >= cusp else deg + 360`, test `cusp <= adj_deg < next_cusp`.
Out-of-range list reads (never reached with 12 cusps and `i < 12`) default
to 0. -/
def house_cond (deg : ℚ) (houses : List ℚ) (i : ℕ) : Prop :=
  (if houses.getD i 0 ≤ deg then houses.getD i 0 ≤ deg ∧
      deg < houses.getD ((i + 1) % 12) 0 + (if i = 11 then 360 else 0)
   else houses.getD i 0 ≤ deg + 360 ∧
      deg + 360 < houses.getD ((i + 1) % 12) 0 + (if i = 11 then 360 else 0))

instance house_cond_decidable (deg : ℚ) (houses : List ℚ) (i : ℕ) :
    Decidable (house_cond deg houses i) := by
  unfold house_cond
  infer_instance

/-- The `for i in range(12)` search with early `return i + 1`, modelled with
the remaining iteration count as fuel; falls through to 12. -/
def house_scan (deg : ℚ) (houses : List ℚ) : ℕ → ℕ → ℕ
  | 0, _ => 12
  | n + 1, i => if house_cond deg houses i then i + 1 else house_scan deg houses n (i + 1)

/-- The `determine_house_for_planet`: scan `i = 0..11`, return the first match
as house `i + 1`, else the defensive fallback 12. -/
def determine_house_for_planet (deg : ℚ) (houses : List ℚ) : ℕ :=
  house_scan deg houses 12 0

theorem house_scan_bounds (deg : ℚ) (houses : List ℚ) :
    ∀ n i : ℕ, i + n ≤ 12 → 1 ≤ house_scan deg houses n i ∧ house_scan deg houses n i ≤ 12 := by
  intro n
  induction n with
  | zero => intro i _; exact ⟨by norm_num [house_scan], by norm_num [house_scan]⟩
  | succ m ih =>
      intro i hi
      rw [house_scan]
      by_cases hc : house_cond deg houses i
      · rw [if_pos hc]
        omega
      · rw [if_neg hc]
        exact ih (i + 1) (by omega)

/-- Claim C4 (amended): `determine_house_for_planet` is total and always
returns exactly one house number in `[1, 12]` (the first matching arc, or the
fallback 12) for every longitude and every cusp list.  The frozen claim's
no-gap/no-overlap property of the 12 wraparound-adjusted arcs fails for
rotated whole-sign cusp sets (see the counterexample): the arc whose next
cusp is 0° can match no longitude, and the 12th test arc spans 390°, so
longitudes in the last pre-0° sign fall through to house 12. -/
theorem C4_house_total (deg : ℚ) (houses : List ℚ) :
    1 ≤ determine_house_for_planet deg houses ∧ determine_house_for_planet deg houses ≤ 12 :=
  house_scan_bounds deg houses 12 0 (by norm_num)

/-- A valid whole-sign cusp list (ascendant in Aquarius, cusps every 30°
wrapping past 0° between the second and third cusps), exactly as
`swe.houses_ex` would return it. -/
def wholeSignCusps : List ℚ :=
  [300, 330, 0, 30, 60, 90, 120, 150, 180, 210, 240, 270]

/-- Counterexample for C4 as frozen: with the valid whole-sign cusp list
starting at 300°, longitude 10° satisfies the arc test of both house 3 and
house 12 (an overlap), while longitude 335° — which lies in the second house's
arc `[330°, 360°)` — fails that arc's test (`330 ≤ adj < 0` is unsatisfiable,
a gap) and is resolved to house 12 by the over-wide 390° twelfth test arc. -/
theorem C4_counterexample :
    house_cond 10 wholeSignCusps 2 ∧ house_cond 10 wholeSignCusps 11 ∧
    determine_house_for_planet 10 wholeSignCusps = 3 ∧
    ¬ house_cond 335 wholeSignCusps 1 ∧
    wholeSignCusps.getD 1 0 = 330 ∧ (330:ℚ) ≤ 335 ∧ (335:ℚ) < 360 ∧
    determine_house_for_planet 335 wholeSignCusps = 12 := by
  refine ⟨?_, ?_, ?_, ?_, by norm_num [wholeSignCusps], by norm_num, by norm_num, ?_⟩
  · norm_num [house_cond, wholeSignCusps]
  · norm_num [house_cond, wholeSignCusps]
  · norm_num [determine_house_for_planet, house_scan, house_cond, wholeSignCusps]
  · norm_num [house_cond, wholeSignCusps]
  · norm_num [determine_house_for_planet, house_scan, house_cond, wholeSignCusps]


/-! ## Divisional charts (`get_sub_lot_index`, `d12_sign_sequence`,
`compute_divisional_chart`, lines 280-315 and 381-399) -/

/-- The `get_sub_lot_index`: `size = 30 / n`, `idx = int(local_deg // size) + 1`,
clamped by `min(idx, n)`.  `local_deg` is always `deg % 30 ≥ 0` at the call
site, so Python's `int()` is floor. -/
def get_sub_lot_index (local_deg : ℚ) (sub_sign_count : ℕ) : ℕ :=
  min ((⌊local_deg / (30 / (sub_sign_count : ℚ))⌋).toNat + 1) sub_sign_count

/-- The Dvadasamsa (D12) lookup table, row for row from `D12_TABLE`;
unknown keys give 12 copies of "Unknown" as in the source's `.get` default. -/
def D12_TABLE : List (String × List String) :=
  [("Aries", ["Aries", "Taurus", "Gemini", "Cancer", "Leo", "Virgo", "Libra", "Scorpio", "Sagittarius", "Capricorn", "Aquarius", "Pisces"]),
   ("Taurus", ["Taurus", "Gemini", "Cancer", "Leo", "Virgo", "Libra", "Scorpio", "Sagittarius", "Capricorn", "Aquarius", "Pisces", "Aries"]),
   ("Gemini", ["Gemini", "Cancer", "Leo", "Virgo", "Libra", "Scorpio", "Sagittarius", "Capricorn", "Aquarius", "Pisces", "Aries", "Taurus"]),
   ("Cancer", ["Cancer", "Leo", "Virgo", "Libra", "Scorpio", "Sagittarius", "Capricorn", "Aquarius", "Pisces", "Aries", "Taurus", "Gemini"]),
   ("Leo", ["Leo", "Virgo", "Libra", "Scorpio", "Sagittarius", "Capricorn", "Aquarius", "Pisces", "Aries", "Taurus", "Gemini", "Cancer"]),
   ("Virgo", ["Virgo", "Libra", "Scorpio", "Sagittarius", "Capricorn", "Aquarius", "Pisces", "Aries", "Taurus", "Gemini", "Cancer", "Leo"]),
   ("Libra", ["Libra", "Scorpio", "Sagittarius", "Capricorn", "Aquarius", "Pisces", "Aries", "Taurus", "Gemini", "Cancer", "Leo", "Virgo"]),
   ("Scorpio", ["Scorpio", "Sagittarius", "Capricorn", "Aquarius", "Pisces", "Aries", "Taurus", "Gemini", "Cancer", "Leo", "Virgo", "Libra"]),
   ("Sagittarius", ["Sagittarius", "Capricorn", "Aquarius", "Pisces", "Aries", "Taurus", "Gemini", "Cancer", "Leo", "Virgo", "Libra", "Scorpio"]),
   ("Capricorn", ["Capricorn", "Aquarius", "Pisces", "Aries", "Taurus", "Gemini", "Cancer", "Leo", "Virgo", "Libra", "Scorpio", "Sagittarius"]),
   ("Aquarius", ["Aquarius", "Pisces", "Aries", "Taurus", "Gemini", "Cancer", "Leo", "Virgo", "Libra", "Scorpio", "Sagittarius", "Capricorn"]),
   ("Pisces", ["Pisces", "Aries", "Taurus", "Gemini", "Cancer", "Leo", "Virgo", "Libra", "Scorpio", "Sagittarius", "Capricorn", "Aquarius"])]

/-- The `d12_sign_sequence`. -/
def d12_sign_sequence (rashi_name : String) : List String :=
  (D12_TABLE.lookup rashi_name).getD (List.replicate 12 "Unknown")

/-- The sign assigned to one planet by `compute_divisional_chart`:
`local_deg = eclip_deg % 30`, `sub_idx = get_sub_lot_index(local_deg, n)`
clamped once more to the row length, then `sub_signs[sub_idx - 1]` (always in
range for the 12-entry rows used here; the `getD` default is unreachable). -/
def divisional_chart_sign (d1_sign : String) (eclip_deg : ℚ) (sub_sign_count : ℕ)
    (sign_sequence_func : String → List String) : String :=
  (sign_sequence_func d1_sign).getD
    ((if (sign_sequence_func d1_sign).length < get_sub_lot_index (qmod eclip_deg 30) sub_sign_count
      then (sign_sequence_func d1_sign).length
      else get_sub_lot_index (qmod eclip_deg 30) sub_sign_count) - 1) "Unknown"

/-- Claim C8: D12 round-trip — whenever a planet's local degree within its
natal sign lies in `[0, 30/12)`, the sub-lot index is the first slot and,
because every row of the D12 table starts at its own key sign, the D12 chart
assigns exactly the natal D1 sign. -/
theorem C8_d12_roundtrip (sign : String) (hsign : sign ∈ SIGNS) (eclip_deg : ℚ)
    (hloc : qmod eclip_deg 30 < 30 / 12) :
    divisional_chart_sign sign eclip_deg 12 d12_sign_sequence = sign := by
  have h0 : 0 ≤ qmod eclip_deg 30 := qmod_nonneg _ _ (by norm_num)
  have hfloor : ⌊qmod eclip_deg 30 / (30 / ((12:ℕ) : ℚ))⌋ = 0 := by
    rw [Int.floor_eq_zero_iff]
    constructor
    · apply div_nonneg h0
      norm_num
    · rw [div_lt_one (by norm_num : (0:ℚ) < 30 / ((12:ℕ) : ℚ))]
      push_cast
      linarith
  have hidx : get_sub_lot_index (qmod eclip_deg 30) 12 = 1 := by
    unfold get_sub_lot_index
    rw [hfloor]
    rfl
  unfold divisional_chart_sign
  rw [hidx]
  fin_cases hsign <;> decide

/-- Witness for C8: a planet at 121° ecliptic longitude (1° into Leo) keeps
sign Leo in the D12 chart. -/
theorem C8_d12_roundtrip_witness :
    (("Leo" : String) ∈ SIGNS) ∧ qmod 121 30 < 30 / 12 ∧
    divisional_chart_sign "Leo" 121 12 d12_sign_sequence = "Leo" :=
  ⟨by decide, by unfold qmod; norm_num,
   C8_d12_roundtrip "Leo" (by decide) 121 (by unfold qmod; norm_num)⟩


/-! ## Time-of-birth parsing (`convert_to_24_hour` in app.py lines 39-46 and
in kundali_calculations.py lines 24-32)

`datetime.strptime` with the formats `"%I:%M %p"` and `"%H:%M"` is modelled
character-for-character after CPython's `_strptime` regexes: `%I` is
`1[0-2]|0[1-9]|[1-9]`, `%H` is `2[0-3]|[0-1][0-9]|[0-9]`, `%M` is
`[0-5][0-9]|[0-9]`, a space in the format is one-or-more whitespace, `%p` is
`AM`/`PM` case-insensitively, and the whole string must be consumed.
`strftime("%H:%M")` zero-pads both fields to two digits. -/

/-- Numeric value of a digit character. -/
def digitVal (c : Char) : ℕ := c.toNat - 48

/-- The `%I` (12-hour clock hour, `1[0-2]|0[1-9]|[1-9]`): returns the value and
the unconsumed rest. -/
def parseHour12 : List Char → Option (ℕ × List Char)
  | c1 :: c2 :: rest =>
      if c1 = '1' ∧ '0' ≤ c2 ∧ c2 ≤ '2' then some (10 + digitVal c2, rest)
      else if c1 = '0' ∧ '1' ≤ c2 ∧ c2 ≤ '9' then some (digitVal c2, rest)
      else if '1' ≤ c1 ∧ c1 ≤ '9' then some (digitVal c1, c2 :: rest)
      else none
  | [c1] => if '1' ≤ c1 ∧ c1 ≤ '9' then some (digitVal c1, []) else none
  | [] => none

/-- The `%H` (24-hour clock hour, `2[0-3]|[0-1][0-9]|[0-9]`). -/
def parseHour24 : List Char → Option (ℕ × List Char)
  | c1 :: c2 :: rest =>
      if c1 = '2' ∧ '0' ≤ c2 ∧ c2 ≤ '3' then some (20 + digitVal c2, rest)
      else if (c1 = '0' ∨ c1 = '1') ∧ c2.isDigit then some (10 * digitVal c1 + digitVal c2, rest)
      else if c1.isDigit then some (digitVal c1, c2 :: rest)
      else none
  | [c1] => if c1.isDigit then some (digitVal c1, []) else none
  | [] => none

/-- The `%M` (minute, `[0-5][0-9]|[0-9]`). -/
def parseMinute : List Char → Option (ℕ × List Char)
  | c1 :: c2 :: rest =>
      if ('0' ≤ c1 ∧ c1 ≤ '5') ∧ c2.isDigit then some (10 * digitVal c1 + digitVal c2, rest)
      else if c1.isDigit then some (digitVal c1, c2 :: rest)
      else none
  | [c1] => if c1.isDigit then some (digitVal c1, []) else none
  | [] => none

/-- A literal space in the format: one or more whitespace characters. -/
def parseSpaces : List Char → Option (List Char)
  | c :: rest => if c.isWhitespace then some (rest.dropWhile Char.isWhitespace) else none
  | [] => none

/-- The `%p`: `AM` or `PM`, case-insensitively; `true` means PM. -/
def parseMeridiem : List Char → Option (Bool × List Char)
  | a :: m :: rest =>
      if (a = 'A' ∨ a = 'a') ∧ (m = 'M' ∨ m = 'm') then some (false, rest)
      else if (a = 'P' ∨ a = 'p') ∧ (m = 'M' ∨ m = 'm') then some (true, rest)
      else none
  | _ => none

/-- The literal `:` of both formats. -/
def parseColon : List Char → Option (List Char)
  | c :: rest => if c = ':' then some rest else none
  | [] => none

/-- The `%p` value conversion: 12 AM is hour 0, PM adds 12 except at 12 PM. -/
def meridiemHour (pm : Bool) (h : ℕ) : ℕ :=
  if pm then (if h = 12 then 12 else h + 12) else (if h = 12 then 0 else h)

/-- The `datetime.strptime(s, "%I:%M %p")`, reduced to the (hour-in-24h, minute)
pair that `strftime("%H:%M")` will print; the whole string must be consumed.
`none` models the `ValueError`. -/
def parse12 (l : List Char) : Option (ℕ × ℕ) :=
  match parseHour12 l with
  | none => none
  | some (h, r1) =>
      match parseColon r1 with
      | none => none
      | some r2 =>
          match parseMinute r2 with
          | none => none
          | some (m, r3) =>
              match parseSpaces r3 with
              | none => none
              | some r4 =>
                  match parseMeridiem r4 with
                  | none => none
                  | some (pm, r5) =>
                      if r5 = [] then some (meridiemHour pm h, m) else none

/-- The `datetime.strptime(s, "%H:%M")`, reduced to the (hour, minute) pair; the
whole string must be consumed.  `none` models the `ValueError`. -/
def parse24 (l : List Char) : Option (ℕ × ℕ) :=
  match parseHour24 l with
  | none => none
  | some (h, r1) =>
      match parseColon r1 with
      | none => none
      | some r2 =>
          match parseMinute r2 with
          | none => none
          | some (m, r3) => if r3 = [] then some (h, m) else none

/-- The `strftime("%H:%M")`: both fields zero-padded to two digits. -/
def format24 (h m : ℕ) : String :=
  String.mk [Nat.digitChar (h / 10), Nat.digitChar (h % 10), ':',
             Nat.digitChar (m / 10), Nat.digitChar (m % 10)]

/-- The `convert_to_24_hour` from kundali_calculations.py: reformat a 12-hour
string, and return the input unchanged when it does not parse. -/
def convert_to_24_hour (s : String) : String :=
  match parse12 s.data with
  | some (h, m) => format24 h m
  | none => s

/-- The structured error of the app-layer converter (an HTTP 400 with an
invalid-time-format detail in app.py). -/
inductive TimeParseError where
  | InvalidTimeFormat
deriving DecidableEq, Repr

/-- The `convert_to_24_hour` from app.py: try 12-hour-with-meridiem, fall back to
24-hour, and fail with the structured error when neither parses. -/
def app_convert_to_24_hour (s : String) : Except TimeParseError String :=
  match parse12 s.data with
  | some (h, m) => Except.ok (format24 h m)
  | none =>
      match parse24 s.data with
      | some (h, m) => Except.ok (format24 h m)
      | none => Except.error TimeParseError.InvalidTimeFormat


theorem parseHour12_suffix (c1 c2 : Char) (rest : List Char) (v : ℕ) (r : List Char)
    (h : parseHour12 (c1 :: c2 :: rest) = some (v, r)) : r <:+ c1 :: c2 :: rest := by
  rw [parseHour12] at h
  split_ifs at h <;> simp only [Option.some.injEq, Prod.mk.injEq] at h
  · rw [← h.2]
    exact ⟨[c1, c2], rfl⟩
  · rw [← h.2]
    exact ⟨[c1, c2], rfl⟩
  · rw [← h.2]
    exact ⟨[c1], rfl⟩

theorem parseColon_suffix (l r : List Char) (h : parseColon l = some r) : r <:+ l := by
  cases l with
  | nil => simp [parseColon] at h
  | cons c rest =>
      rw [parseColon] at h
      split_ifs at h
      simp only [Option.some.injEq] at h
      rw [← h]
      exact ⟨[c], rfl⟩

theorem parseMinute_suffix (l : List Char) (v : ℕ) (r : List Char)
    (h : parseMinute l = some (v, r)) : r <:+ l := by
  cases l with
  | nil => simp [parseMinute] at h
  | cons c1 tl =>
      cases tl with
      | nil =>
          rw [parseMinute] at h
          split_ifs at h
          simp only [Option.some.injEq, Prod.mk.injEq] at h
          rw [← h.2]
          exact ⟨[c1], rfl⟩
      | cons c2 rest =>
          rw [parseMinute] at h
          split_ifs at h <;> simp only [Option.some.injEq, Prod.mk.injEq] at h
          · rw [← h.2]
            exact ⟨[c1, c2], rfl⟩
          · rw [← h.2]
            exact ⟨[c1], rfl⟩

theorem parseSpaces_suffix (l r : List Char) (h : parseSpaces l = some r) : r <:+ l := by
  cases l with
  | nil => simp [parseSpaces] at h
  | cons c rest =>
      rw [parseSpaces] at h
      split_ifs at h
      simp only [Option.some.injEq] at h
      rw [← h]
      exact (List.dropWhile_suffix _).trans ⟨[c], rfl⟩

theorem parseMeridiem_shape (l : List Char) (pm : Bool)
    (h : parseMeridiem l = some (pm, [])) :
    ∃ a b, l = [a, b] ∧ (b = 'M' ∨ b = 'm') := by
  cases l with
  | nil => simp [parseMeridiem] at h
  | cons a tl =>
      cases tl with
      | nil => simp [parseMeridiem] at h
      | cons b rest =>
          rw [parseMeridiem] at h
          split_ifs at h with hc1 hc2 <;> simp only [Option.some.injEq, Prod.mk.injEq] at h
          · exact ⟨a, b, by rw [h.2], hc1.2⟩
          · exact ⟨a, b, by rw [h.2], hc2.2⟩

/-- A successful 12-hour-with-meridiem parse consumes the whole string and
ends on the meridiem's final `M`/`m`. -/
theorem parse12_shape (l : List Char) (x : ℕ × ℕ) (hx : parse12 l = some x) :
    ∃ t a b, t ++ [a, b] = l ∧ (b = 'M' ∨ b = 'm') := by
  unfold parse12 at hx
  cases h1 : parseHour12 l with
  | none => rw [h1] at hx; simp at hx
  | some hr =>
      obtain ⟨hh, r1⟩ := hr
      rw [h1] at hx
      dsimp only at hx
      have hr1 : r1 <:+ l := by
        cases l with
        | nil => simp [parseHour12] at h1
        | cons c1 tl =>
            cases tl with
            | nil =>
                rw [parseHour12] at h1
                split_ifs at h1
                simp only [Option.some.injEq, Prod.mk.injEq] at h1
                rw [← h1.2]
                exact ⟨[c1], rfl⟩
            | cons c2 rest => exact parseHour12_suffix c1 c2 rest hh r1 h1
      cases h2 : parseColon r1 with
      | none => rw [h2] at hx; simp at hx
      | some r2 =>
          rw [h2] at hx
          dsimp only at hx
          cases h3 : parseMinute r2 with
          | none => rw [h3] at hx; simp at hx
          | some mr =>
              obtain ⟨mm, r3⟩ := mr
              rw [h3] at hx
              dsimp only at hx
              cases h4 : parseSpaces r3 with
              | none => rw [h4] at hx; simp at hx
              | some r4 =>
                  rw [h4] at hx
                  dsimp only at hx
                  cases h5 : parseMeridiem r4 with
                  | none => rw [h5] at hx; simp at hx
                  | some pr =>
                      obtain ⟨pm, r5⟩ := pr
                      rw [h5] at hx
                      dsimp only at hx
                      have hr5 : r5 = [] := by
                        by_contra hne
                        rw [if_neg hne] at hx
                        simp at hx
                      subst hr5
                      obtain ⟨a, b, hab, hb⟩ := parseMeridiem_shape r4 pm h5
                      have hs : r4 <:+ l :=
                        ((parseSpaces_suffix r3 r4 h4).trans
                          ((parseMinute_suffix r2 mm r3 h3).trans
                            ((parseColon_suffix r1 r2 h2).trans hr1)))
                      obtain ⟨t, ht⟩ := hs
                      rw [hab] at ht
                      exact ⟨t, a, b, ht, hb⟩

/-- The output of `strftime("%H:%M")` never re-parses as a 12-hour string:
it ends in a digit, not `M`/`m`. -/
theorem parse12_format24 (h m : ℕ) : parse12 (format24 h m).data = none := by
  cases hx : parse12 (format24 h m).data with
  | none => rfl
  | some x =>
      exfalso
      obtain ⟨t, a, b, ht, hb⟩ := parse12_shape _ x hx
      have hdata : (format24 h m).data =
          [Nat.digitChar (h / 10), Nat.digitChar (h % 10), ':',
           Nat.digitChar (m / 10), Nat.digitChar (m % 10)] := rfl
      rw [hdata] at ht
      have hrev := congrArg List.reverse ht
      simp only [List.reverse_append, List.reverse_cons, List.reverse_nil, List.nil_append,
        List.cons_append, List.cons.injEq] at hrev
      obtain ⟨hb4, -⟩ := hrev
      rw [hb4] at hb
      have hmlt : m % 10 < 10 := Nat.mod_lt _ (by norm_num)
      set k := m % 10 with hk
      interval_cases k <;> exact absurd hb (by decide)

/-- Claim C10: the kundali_calculations `convert_to_24_hour` is idempotent:
converting twice equals converting once, any string that does not parse as
12-hour-with-meridiem (including already-24-hour strings such as "19:30") is
returned unchanged, and a 12-hour string converts to its 24-hour form — which
is why the double conversion along the app.py → `calculate_kundali` path is
harmless. -/
theorem C10_convert_idempotent :
    (∀ s : String, convert_to_24_hour (convert_to_24_hour s) = convert_to_24_hour s) ∧
    (∀ s : String, parse12 s.data = none → convert_to_24_hour s = s) ∧
    convert_to_24_hour "19:30" = "19:30" ∧
    convert_to_24_hour "07:30 PM" = "19:30" := by
  have hunch : ∀ s : String, parse12 s.data = none → convert_to_24_hour s = s := by
    intro s hp
    simp [convert_to_24_hour, hp]
  refine ⟨?_, hunch, by decide, by decide⟩
  intro s
  cases hp : parse12 s.data with
  | none =>
      rw [hunch s hp]
      exact hunch s hp
  | some x =>
      obtain ⟨h, m⟩ := x
      have h1 : convert_to_24_hour s = format24 h m := by
        simp [convert_to_24_hour, hp]
      rw [h1]
      exact hunch (format24 h m) (parse12_format24 h m)

/-- Witness for C10: the already-24-hour string "19:30" does not parse as
12-hour and is returned unchanged. -/
theorem C10_convert_idempotent_witness :
    parse12 ("19:30").data = none ∧ convert_to_24_hour "19:30" = "19:30" :=
  ⟨by decide, C10_convert_idempotent.2.1 "19:30" (by decide)⟩

/-- Claim C2: the app-layer time parsing tries 12-hour-with-meridiem first
(any successful 12-hour parse wins), falls back to 24-hour, and any string
that parses in neither format — such as "13:99", whose minute 99 fails `%M` —
produces the structured invalid-time-format error (an HTTP 400), not a raw
exception or a silent default. -/
theorem C2_time_error_handling :
    (∀ (s : String) (h m : ℕ), parse12 s.data = some (h, m) →
        app_convert_to_24_hour s = Except.ok (format24 h m)) ∧
    (∀ (s : String) (h m : ℕ), parse12 s.data = none → parse24 s.data = some (h, m) →
        app_convert_to_24_hour s = Except.ok (format24 h m)) ∧
    (∀ s : String, parse12 s.data = none → parse24 s.data = none →
        app_convert_to_24_hour s = Except.error TimeParseError.InvalidTimeFormat) ∧
    parse12 ("13:99").data = none ∧ parse24 ("13:99").data = none ∧
    app_convert_to_24_hour "13:99" = Except.error TimeParseError.InvalidTimeFormat := by
  refine ⟨?_, ?_, ?_, by decide, by decide, by rfl⟩
  · intro s h m h12
    simp [app_convert_to_24_hour, h12]
  · intro s h m h12 h24
    simp [app_convert_to_24_hour, h12, h24]
  · intro s h12 h24
    simp [app_convert_to_24_hour, h12, h24]

/-- Witness for C2: a valid 12-hour string converts, and the malformed
"13:99" yields the structured error. -/
theorem C2_time_error_handling_witness :
    app_convert_to_24_hour "07:30 PM" = Except.ok "19:30" ∧
    app_convert_to_24_hour "13:99" = Except.error TimeParseError.InvalidTimeFormat :=
  ⟨by rw [C2_time_error_handling.1 "07:30 PM" 19 30 (by decide)]; rfl,
   C2_time_error_handling.2.2.1 "13:99" (by decide) (by decide)⟩

